import Mathlib

/-!
Verification of the Smart-ToDo task/kanban application (`app.py`).

The SQLAlchemy models `User`, `Column`, `Task` become Lean structures; the
database becomes explicit lists of rows.  Each Flask view function becomes a
pure Lean function from the relevant tables (plus the session user and form
fields) to the updated tables and an HTTP-level response.  Datetimes are
modelled as integer timestamps (seconds); `strftime`/`strptime` formatting is
abstracted because no property here depends on the textual format of a date.
-/

namespace SmartTodo

/-- A row of the `user` table (`class User`). -/
structure User where
  id : Nat
  name : String
  email : String
  password : String
deriving Repr, DecidableEq

/-- A row of the `column` table (`class Column`): a named workflow stage with
an integer position, owned by one user. -/
structure Column where
  id : Nat
  name : String
  position : Nat
  user_id : Nat
deriving Repr, DecidableEq

/-- A row of the `task` table (`class Task`).  `due_date` and `created_at` are
timestamps in seconds; `description` and `column_id` are nullable. -/
structure Task where
  id : Nat
  title : String
  description : Option String
  due_date : Option Int
  priority : String
  complete : Bool
  reminder_set : Bool
  created_at : Int
  status : String
  user_id : Nat
  column_id : Option Nat
deriving Repr, DecidableEq

/-- The response of a view function, at the granularity the spec talks about:
a redirect (with its target page and the flashed message and category), a JSON
payload, a 404 from `get_or_404`, or an uncaught exception (HTTP 500). -/
inductive Resp where
  | redirect (target : String) (flashMsg : String) (flashCat : String)
  | jsonOk
  | jsonErr (statusCode : Nat) (error : String)
  | notFound
  | serverError (msg : String)
deriving Repr, DecidableEq

/-- Python's `str.strip()`: drop leading and trailing whitespace. -/
def strip (s : String) : String :=
  ⟨((s.data.dropWhile Char.isWhitespace).reverse.dropWhile Char.isWhitespace).reverse⟩

/-- Python truthiness of an optional string (`None` and `""` are falsy), used
for `request.form.get(...) or default` and for the mail-credential check. -/
def truthy : Option String → Bool
  | none => false
  | some s => s ≠ ""

/-- Stable insertion of a column into a list sorted by ascending `position`. -/
def insert_by_pos (c : Column) : List Column → List Column
  | [] => [c]
  | d :: ds => if c.position ≤ d.position then c :: d :: ds else d :: insert_by_pos c ds

/-- Stable sort by ascending `position`: the model of
`.order_by(Column.position)` (SQLite keeps insertion order on ties). -/
def sort_by_position (l : List Column) : List Column := l.foldr insert_by_pos []

/-- The user's columns: `Column.query.filter_by(user_id=uid).order_by(Column.position)`. -/
def user_columns (cols : List Column) (uid : Nat) : List Column :=
  sort_by_position (cols.filter (fun c => c.user_id == uid))

/-- Model of `ensure_default_columns(user_id)`: create the default workflow columns
"To Do"/"In Progress"/"Done" at positions 0,1,2 for the user if the user
currently has none.  `next_id` stands for the ids the database assigns to the
three freshly inserted rows. -/
def ensure_default_columns (cols : List Column) (user_id : Nat) (next_id : Nat) : List Column :=
  if (user_columns cols user_id).isEmpty then
    cols ++ [⟨next_id, "To Do", 0, user_id⟩,
             ⟨next_id + 1, "In Progress", 1, user_id⟩,
             ⟨next_id + 2, "Done", 2, user_id⟩]
  else cols

/-- The dictionary returned by `calculate_stats(tasks)`. -/
structure Stats where
  total : Nat
  pending : Nat
  completed : Nat
  overdue : Nat
deriving Repr, DecidableEq

/-- The overdue test of `calculate_stats`:
`t.due_date and t.due_date < datetime.now() and not t.complete`. -/
def is_overdue (now : Int) (t : Task) : Bool :=
  (match t.due_date with
   | some d => decide (d < now)
   | none => false) && !t.complete

/-- Model of `calculate_stats(tasks)` with the current time passed explicitly. -/
def calculate_stats (tasks : List Task) (now : Int) : Stats :=
  { total := tasks.length
    pending := (tasks.filter (fun t => !t.complete)).length
    completed := (tasks.filter (fun t => t.complete)).length
    overdue := (tasks.filter (is_overdue now)).length }

/-- The `login_required` decorator: with no `user_id` in the session it
flashes "Please login first!" (warning) and redirects to the login page,
leaving the state untouched; otherwise it runs the wrapped view with the
session's user id. -/
def login_required {σ : Type} (handler : Nat → σ × Resp) (session_user : Option Nat)
    (st : σ) : σ × Resp :=
  match session_user with
  | none => (st, Resp.redirect "login" "Please login first!" "warning")
  | some sid => handler sid

/-- Model of `Task.query.get_or_404(task_id)`. -/
def get_task (db : List Task) (task_id : Nat) : Option Task :=
  db.find? (fun t => t.id == task_id)

/-- The mutation of the `/toggle/<id>` view: flip `complete` on the matched row. -/
def toggle_update (task_id : Nat) (u : Task) : Task :=
  if u.id == task_id then { u with complete := !u.complete } else u

/-- The `/toggle/<id>` view body (session user already extracted by
`login_required`): 404 on unknown id, reject a task of another user with a
flash + redirect to index, otherwise flip `complete` and commit. -/
def toggle (db : List Task) (sid : Nat) (task_id : Nat) : List Task × Resp :=
  match get_task db task_id with
  | none => (db, Resp.notFound)
  | some t =>
    if t.user_id != sid then
      (db, Resp.redirect "index" "Not authorized." "danger")
    else
      (db.map (toggle_update task_id), Resp.redirect "referrer" "Task updated." "success")

/-- The mutation of the `/toggle_reminder/<id>` view: flip `reminder_set`. -/
def toggle_reminder_update (task_id : Nat) (u : Task) : Task :=
  if u.id == task_id then { u with reminder_set := !u.reminder_set } else u

/-- The `/toggle_reminder/<id>` view body: 404 on unknown id, reject a task of
another user (flash + redirect back), otherwise flip `reminder_set`. -/
def toggle_reminder (db : List Task) (sid : Nat) (task_id : Nat) : List Task × Resp :=
  match get_task db task_id with
  | none => (db, Resp.notFound)
  | some t =>
    if t.user_id != sid then
      (db, Resp.redirect "referrer" "Not authorized" "danger")
    else
      (db.map (toggle_reminder_update task_id),
       Resp.redirect "referrer" "Reminder toggled." "info")

/-- The `/delete/<id>` view body: 404 on unknown id, reject a task of another
user, otherwise delete the row. -/
def delete (db : List Task) (sid : Nat) (task_id : Nat) : List Task × Resp :=
  match get_task db task_id with
  | none => (db, Resp.notFound)
  | some t =>
    if t.user_id != sid then
      (db, Resp.redirect "index" "Not authorized." "danger")
    else
      (db.filter (fun u => u.id != task_id),
       Resp.redirect "referrer" "Task deleted." "info")

/-- The `/update_column/<task_id>/<col_id>` view body: 404 on unknown task,
JSON 403 when the task belongs to another user, JSON 404 when the column id
does not name a column of the session user, otherwise set the task's
`column_id` and overwrite its `status` with the column's lower-cased name. -/
def update_column (db : List Task) (cols : List Column) (sid : Nat)
    (task_id col_id : Nat) : List Task × Resp :=
  match get_task db task_id with
  | none => (db, Resp.notFound)
  | some t =>
    if t.user_id != sid then
      (db, Resp.jsonErr 403 "Unauthorized")
    else
      match cols.find? (fun c => c.id == col_id && c.user_id == sid) with
      | none => (db, Resp.jsonErr 404 "Column not found")
      | some col =>
        (db.map (fun u => if u.id == task_id then
            { u with column_id := some col_id, status := col.name.toLower } else u),
         Resp.jsonOk)

/-- The `/update_status/<task_id>/<new_status>` view body: 404 on unknown
task, JSON 403 when the task belongs to another user, otherwise store the
status string verbatim. -/
def update_status (db : List Task) (sid : Nat) (task_id : Nat)
    (new_status : String) : List Task × Resp :=
  match get_task db task_id with
  | none => (db, Resp.notFound)
  | some t =>
    if t.user_id != sid then
      (db, Resp.jsonErr 403 "Unauthorized")
    else
      (db.map (fun u => if u.id == task_id then { u with status := new_status } else u),
       Resp.jsonOk)

/-- The `/edit_task/<task_id>` view body.  The source checks only that the
task exists — it never compares `task.user_id` with the session user — and
then overwrites title, description, due date and priority from the form.
`task.due_date = request.form['due_date'] or None` stores the raw form string
into the DateTime column: an empty string becomes `None`; any other string
makes the subsequent `db.session.commit()` raise (SQLite's DateTime type
accepts only datetime objects), which is rolled back and surfaces as a 500
with no persisted change.  Modelled accordingly. -/
def edit_task (db : List Task) (task_id : Nat)
    (f_title f_description f_due f_priority : String) : List Task × Resp :=
  match db.find? (fun t => t.id == task_id) with
  | none => (db, Resp.redirect "workflow" "Task not found!" "danger")
  | some _ =>
    if f_due == "" then
      (db.map (fun u => if u.id == task_id then
          { u with title := f_title, description := some f_description,
                   due_date := none, priority := f_priority } else u),
       Resp.redirect "workflow" "Task updated!" "success")
    else
      (db, Resp.serverError "StatementError: SQLite DateTime type only accepts Python datetime objects")

/-- The `/delete_column/<column_id>` view body.  The source looks the column
up by id alone (no ownership filter), binds a local `default_columns` list it
never uses, and then tests `column.name not in default_names` — but
`default_names` is undefined in this scope (it is a local of the `workflow`
view), so reaching the test raises `NameError`, i.e. an HTTP 500 with nothing
deleted.  Only when the column id is unknown does the short-circuit on
`column and ...` reach the else branch and flash the warning. -/
def delete_column (cols : List Column) (column_id : Nat) : List Column × Resp :=
  match cols.find? (fun c => c.id == column_id) with
  | none => (cols, Resp.redirect "workflow" "You cannot delete default columns." "warning")
  | some _ => (cols, Resp.serverError "NameError: name 'default_names' is not defined")

/-- The `/add` view body (session user already extracted).  Form fields are
`Option String` (`request.form.get` returns `None` for a missing field);
`strptime` abstracts `datetime.strptime(due, "%Y-%m-%dT%H:%M")`, returning
`none` where the source catches the parse exception; `to_int` abstracts
`int(column_id)` the same way.  `next_task_id`/`next_col_id` stand for the ids
the database assigns to fresh rows, `now` for `datetime.utcnow()`.
Returns the task table, the column table and the response. -/
def add (db : List Task) (cols : List Column) (sid : Nat)
    (f_title f_desc f_due f_priority f_column_id : Option String) (f_reminder : Bool)
    (strptime : String → Option Int) (to_int : String → Option Nat)
    (next_task_id next_col_id : Nat) (now : Int) : List Task × List Column × Resp :=
  let title := strip (f_title.getD "")
  let priority := if truthy f_priority then f_priority.getD "" else "Medium"
  if title == "" then
    (db, cols, Resp.redirect "referrer" "Title required" "danger")
  else
    let due_date := if truthy f_due then strptime (f_due.getD "") else none
    let cols2 := ensure_default_columns cols sid next_col_id
    let first_col_id := ((user_columns cols2 sid).head?.map (fun c => c.id)).getD 0
    let column_id :=
      if truthy f_column_id then
        match to_int (f_column_id.getD "") with
        | none => first_col_id
        | some n =>
          match cols2.find? (fun c => c.id == n && c.user_id == sid) with
          | none => first_col_id
          | some c => c.id
      else first_col_id
    let task : Task :=
      { id := next_task_id, title := title, description := f_desc,
        due_date := due_date, priority := priority, complete := false,
        reminder_set := f_reminder, created_at := now, status := "todo",
        user_id := sid, column_id := some column_id }
    (db ++ [task], cols2, Resp.redirect "referrer" "Task added." "success")

/-- The canonical default names the `/workflow` view repairs against. -/
def workflow_default_names : List String :=
  ["To Do", "In Progress", "Completed", "Pending", "Done"]

/-- The columns the `/workflow` view stages with `db.session.add` for the
missing names: one fresh row per name, `position` left at its default 0. -/
def stage_missing (uid : Nat) : Nat → List String → List Column
  | _, [] => []
  | n, name :: rest => ⟨n, name, 0, uid⟩ :: stage_missing uid (n + 1) rest

/-- The column-repair fragment of the `/workflow` view.  The view queries the
user's columns ordered by position into `columns`, collects their names, and
for every canonical default name not among them stages a new `Column` in the
db session; it never commits these additions, and it renders the previously
queried `columns` list, not the repaired one.  Returns (staged additions,
presented columns). -/
def workflow_columns (cols : List Column) (uid : Nat) (next_id : Nat) :
    List Column × List Column :=
  let columns := user_columns cols uid
  let existing_names := columns.map (fun c => c.name)
  let missing := workflow_default_names.filter (fun n => !(existing_names.contains n))
  (stage_missing uid next_id missing, columns)

/-- The filter of one `reminder_worker` cycle: armed, incomplete, and due
strictly within the next 300 seconds of the cycle's `now` snapshot
(`0 < seconds_left < 300`). -/
def reminder_due (now : Int) (t : Task) : Bool :=
  t.reminder_set && !t.complete &&
    (match t.due_date with
     | some d => decide (0 < d - now) && decide (d - now < 300)
     | none => false)

/-- A `flask_mail.Message` as built by `reminder_worker` (single recipient). -/
structure Message where
  subject : String
  sender : String
  recipient : String
  body : String
deriving Repr, DecidableEq

/-- The message `reminder_worker` sends for task `t`: recipient is the owning
user's email via the `t.user` backref (the foreign key is non-nullable, so the
`getD ""` default is unreachable on consistent tables); `strftime` of the due
date is abstracted as its numeral. -/
def mk_message (users : List User) (sender : String) (t : Task) : Message :=
  { subject := "Task Reminder"
    sender := sender
    recipient := (((users.find? (fun u => u.id == t.user_id)).map
        (fun u => u.email)).getD "")
    body := "Reminder: " ++ t.title ++ "\nDue at "
        ++ (match t.due_date with | some d => toString d | none => "")
        ++ "\n\n" ++ t.description.getD "" }

/-- The disarm step of `reminder_worker`: once a task is observed armed,
incomplete and inside the window, `reminder_set` is cleared — inside the
`try`-protected region but after the credential guard and the `mail.send`
call, so it runs whether or not a send was attempted or succeeded (a send
exception is caught and only logged). -/
def disarm_update (now : Int) (u : Task) : Task :=
  if reminder_due now u then { u with reminder_set := false } else u

/-- One cycle of the `reminder_worker` loop: snapshot `now`, select armed and
incomplete tasks, send a reminder for each one due within the window provided
both mail credentials are configured (truthy), and clear `reminder_set` on
every such task regardless.  Returns the task table after the cycle and the
list of messages passed to `mail.send`. -/
def reminder_cycle (db : List Task) (users : List User)
    (mail_username mail_password : Option String) (now : Int) :
    List Task × List Message :=
  let due := db.filter (reminder_due now)
  let msgs :=
    if truthy mail_username && truthy mail_password then
      due.map (mk_message users (mail_username.getD ""))
    else []
  (db.map (disarm_update now), msgs)

/-- Route `/update_column`: `login_required` around `update_column`. -/
def update_column_route (db : List Task) (cols : List Column)
    (session_user : Option Nat) (task_id col_id : Nat) : List Task × Resp :=
  login_required (fun sid => update_column db cols sid task_id col_id) session_user db

/-- Route `/update_status`: `login_required` around `update_status`. -/
def update_status_route (db : List Task) (session_user : Option Nat)
    (task_id : Nat) (new_status : String) : List Task × Resp :=
  login_required (fun sid => update_status db sid task_id new_status) session_user db

/-- Route `/toggle`: `login_required` around `toggle`. -/
def toggle_route (db : List Task) (session_user : Option Nat) (task_id : Nat) :
    List Task × Resp :=
  login_required (fun sid => toggle db sid task_id) session_user db

/-- Route `/edit_task`: `login_required` extracts a session user, which
the view body then never consults. -/
def edit_task_route (db : List Task) (session_user : Option Nat) (task_id : Nat)
    (f_title f_description f_due f_priority : String) : List Task × Resp :=
  login_required (fun _sid => edit_task db task_id f_title f_description f_due f_priority)
    session_user db

/-! Helper lemmas about the embedding. -/

lemma length_insert_by_pos (c : Column) (l : List Column) :
    (insert_by_pos c l).length = l.length + 1 := by
  induction l with
  | nil => rfl
  | cons d ds ih =>
    unfold insert_by_pos
    split
    · simp
    · simp [ih]

lemma length_sort_by_position (l : List Column) :
    (sort_by_position l).length = l.length := by
  induction l with
  | nil => rfl
  | cons a l ih =>
    show (insert_by_pos a (sort_by_position l)).length = l.length + 1
    rw [length_insert_by_pos, ih]

lemma mem_insert_by_pos {x c : Column} {l : List Column} :
    x ∈ insert_by_pos c l ↔ x = c ∨ x ∈ l := by
  induction l with
  | nil => simp [insert_by_pos]
  | cons d ds ih =>
    unfold insert_by_pos
    split
    · simp
    · simp [ih]; tauto

lemma mem_sort_by_position {x : Column} {l : List Column} :
    x ∈ sort_by_position l ↔ x ∈ l := by
  induction l with
  | nil => simp [sort_by_position]
  | cons a l ih =>
    show x ∈ insert_by_pos a (sort_by_position l) ↔ _
    rw [mem_insert_by_pos, ih]
    simp [eq_comm]

lemma mem_user_columns {x : Column} {cols : List Column} {uid : Nat} :
    x ∈ user_columns cols uid ↔ x ∈ cols ∧ x.user_id = uid := by
  rw [user_columns, mem_sort_by_position, List.mem_filter]
  simp

lemma stage_missing_map_name (uid : Nat) (n : Nat) (names : List String) :
    (stage_missing uid n names).map (fun c => c.name) = names := by
  induction names generalizing n with
  | nil => rfl
  | cons a l ih => simp [stage_missing, ih]

lemma mem_stage_missing {a : Column} {uid n : Nat} {names : List String} :
    a ∈ stage_missing uid n names → a.user_id = uid ∧ a.name ∈ names := by
  induction names generalizing n with
  | nil => simp [stage_missing]
  | cons b l ih =>
    intro h
    rcases List.mem_cons.mp h with h | h
    · subst h; simp
    · rcases ih h with ⟨h1, h2⟩
      exact ⟨h1, List.mem_cons_of_mem _ h2⟩

/-! C1.  The spec's authorization rule ("used throughout") requires every
task-targeting operation to reject a session user who is not the owner.
`toggle`, `toggle_reminder`, `update_column`, `update_status` and `delete` all
implement the check, but `edit_task` never compares `task.user_id` with the
session user, so any authenticated user can overwrite any task's fields. -/

/-- Claim C1 (code_bug evidence): user 1's session runs `/edit_task/7` on a
task owned by user 2; the request is not rejected and the task's title,
description, due date and priority are all overwritten. -/
theorem C1_edit_task_cross_user_mutation :
    edit_task_route
        [⟨7, "B task", some "keep", some 1000, "Low", false, true, 5, "todo", 2, some 3⟩]
        (some 1) 7 "hacked" "pwned" "" "High"
      = ([⟨7, "hacked", some "pwned", none, "High", false, true, 5, "todo", 2, some 3⟩],
         Resp.redirect "workflow" "Task updated!" "success") := by
  rfl

/-! C2.  `delete_column` reaches `column.name not in default_names` for every
existing column, and `default_names` is undefined there: the request dies with
a NameError (HTTP 500) and nothing is deleted — for a user-created column such
as "My Stage" just as for "Done".  The warning-flash branch is reached only
for an unknown column id. -/

/-- Claim C2 (code_bug evidence): with columns "To Do"/"In Progress"/"Done"/
"My Stage" all owned by user 1, deleting the user-created column 4 ("My
Stage") raises the NameError and removes nothing, and so does deleting column
3 ("Done") — neither the promised deletion nor the promised warning flash
happens on existing columns. -/
theorem C2_delete_column_name_error :
    delete_column
        [⟨1, "To Do", 0, 1⟩, ⟨2, "In Progress", 1, 1⟩, ⟨3, "Done", 2, 1⟩,
         ⟨4, "My Stage", 3, 1⟩] 4
      = ([⟨1, "To Do", 0, 1⟩, ⟨2, "In Progress", 1, 1⟩, ⟨3, "Done", 2, 1⟩,
          ⟨4, "My Stage", 3, 1⟩],
         Resp.serverError "NameError: name 'default_names' is not defined")
    ∧ delete_column
        [⟨1, "To Do", 0, 1⟩, ⟨2, "In Progress", 1, 1⟩, ⟨3, "Done", 2, 1⟩,
         ⟨4, "My Stage", 3, 1⟩] 3
      = ([⟨1, "To Do", 0, 1⟩, ⟨2, "In Progress", 1, 1⟩, ⟨3, "Done", 2, 1⟩,
          ⟨4, "My Stage", 3, 1⟩],
         Resp.serverError "NameError: name 'default_names' is not defined") := by
  exact ⟨rfl, rfl⟩

/-! C3.  `update_column` and `update_status` are wrapped in `login_required`
like every other board endpoint, so an unauthenticated request to them is
redirected to login with the warning flash — it never reaches the JSON path.
The JSON 403 payload appears only for an authenticated non-owner. -/

/-- Claim C3 counterexample: an unauthenticated request to the JSON endpoint
`/update_column/7/3` (the task and column exist) yields the login redirect,
not the unauthorized JSON payload the claim promises. -/
theorem C3_counterexample :
    update_column_route
        [⟨7, "t", none, none, "Medium", false, false, 0, "todo", 2, none⟩]
        [⟨3, "Done", 2, 2⟩] none 7 3
      = ([⟨7, "t", none, none, "Medium", false, false, 0, "todo", 2, none⟩],
         Resp.redirect "login" "Please login first!" "warning")
    ∧ (update_column_route
        [⟨7, "t", none, none, "Medium", false, false, 0, "todo", 2, none⟩]
        [⟨3, "Done", 2, 2⟩] none 7 3).2 ≠ Resp.jsonErr 403 "Unauthorized" := by
  exact ⟨rfl, by decide⟩

/-- Claim C3 as amended: every login-guarded endpoint, the JSON-returning
`update_column` and `update_status` included, answers an unauthenticated
request with the login redirect and warning; the JSON unauthorized payload
(403) is produced only when an authenticated session user is not the owner of
the target task. -/
theorem C3_unauth_redirect_json_403 :
    ∀ (db : List Task) (cols : List Column) (task_id col_id : Nat) (st : String) (t : Task),
      update_column_route db cols none task_id col_id
        = (db, Resp.redirect "login" "Please login first!" "warning")
      ∧ update_status_route db none task_id st
        = (db, Resp.redirect "login" "Please login first!" "warning")
      ∧ toggle_route db none task_id
        = (db, Resp.redirect "login" "Please login first!" "warning")
      ∧ (∀ sid : Nat, get_task db task_id = some t → t.user_id ≠ sid →
          update_column_route db cols (some sid) task_id col_id
            = (db, Resp.jsonErr 403 "Unauthorized"))
      ∧ (∀ sid : Nat, get_task db task_id = some t → t.user_id ≠ sid →
          update_status_route db (some sid) task_id st
            = (db, Resp.jsonErr 403 "Unauthorized")) := by
  intro db cols task_id col_id st t
  refine ⟨rfl, rfl, rfl, ?_, ?_⟩
  · intro sid hfind hne
    have hb : (t.user_id != sid) = true := bne_iff_ne.mpr hne
    simp [update_column_route, login_required, update_column, hfind, hb]
  · intro sid hfind hne
    have hb : (t.user_id != sid) = true := bne_iff_ne.mpr hne
    simp [update_status_route, login_required, update_status, hfind, hb]

/-- Witness for C3: the amended statement at a concrete task owned by user 2
and a session of user 1. -/
theorem C3_unauth_redirect_json_403_witness :
    update_column_route
        [⟨7, "t", none, none, "Medium", false, false, 0, "todo", 2, none⟩]
        [⟨3, "Done", 2, 2⟩] (some 1) 7 3
      = ([⟨7, "t", none, none, "Medium", false, false, 0, "todo", 2, none⟩],
         Resp.jsonErr 403 "Unauthorized")
    ∧ update_status_route
        [⟨7, "t", none, none, "Medium", false, false, 0, "todo", 2, none⟩]
        (some 1) 7 "done"
      = ([⟨7, "t", none, none, "Medium", false, false, 0, "todo", 2, none⟩],
         Resp.jsonErr 403 "Unauthorized") := by
  have h := C3_unauth_redirect_json_403
      [⟨7, "t", none, none, "Medium", false, false, 0, "todo", 2, none⟩]
      [⟨3, "Done", 2, 2⟩] 7 3 "done"
      ⟨7, "t", none, none, "Medium", false, false, 0, "todo", 2, none⟩
  exact ⟨h.2.2.2.1 1 (by decide) (by decide), h.2.2.2.2 1 (by decide) (by decide)⟩

/-! C4.  The `/workflow` view stages a new column for every missing canonical
default name, but it renders the `columns` list it queried before the repair
(and never commits the staged rows), so the presented column set does not
contain the newly added names. -/

/-- Claim C4 counterexample: a user owning exactly the three signup defaults
runs `/workflow`; "Completed" is among the freshly staged columns but not in
the column set the same call presents. -/
theorem C4_counterexample :
    "Completed" ∈ ((workflow_columns
        [⟨1, "To Do", 0, 1⟩, ⟨2, "In Progress", 1, 1⟩, ⟨3, "Done", 2, 1⟩] 1 4).1.map
          (fun c => c.name))
    ∧ "Completed" ∉ ((workflow_columns
        [⟨1, "To Do", 0, 1⟩, ⟨2, "In Progress", 1, 1⟩, ⟨3, "Done", 2, 1⟩] 1 4).2.map
          (fun c => c.name)) := by
  decide

/-- Claim C4 as amended: the repair stages (in the db session, uncommitted) a
new column for every canonical default name missing from the user's columns
and removes or renames nothing, but the column set presented by that same
call is the pre-repair query result: it contains exactly the user's prior
columns and none of the newly staged names. -/
theorem C4_workflow_repair_staged_not_presented :
    ∀ (cols : List Column) (uid next_id : Nat),
      (∀ n, n ∈ workflow_default_names →
        n ∉ ((workflow_columns cols uid next_id).2.map (fun c => c.name)) →
        n ∈ ((workflow_columns cols uid next_id).1.map (fun c => c.name)))
      ∧ (∀ c, c ∈ cols → c.user_id = uid → c ∈ (workflow_columns cols uid next_id).2)
      ∧ (∀ c, c ∈ (workflow_columns cols uid next_id).2 → c ∈ cols ∧ c.user_id = uid)
      ∧ (∀ a, a ∈ (workflow_columns cols uid next_id).1 →
          a.user_id = uid ∧ a.name ∉ ((workflow_columns cols uid next_id).2.map (fun c => c.name))) := by
  intro cols uid next_id
  refine ⟨?_, ?_, ?_, ?_⟩
  · intro n hdef hnot
    rw [workflow_columns] at hnot ⊢
    simp only [stage_missing_map_name]
    rw [List.mem_filter]
    refine ⟨hdef, ?_⟩
    simp only [Bool.not_eq_true']
    by_contra hc
    rw [Bool.not_eq_false, List.contains_iff_exists_mem_beq] at hc
    rcases hc with ⟨a, ha, hab⟩
    exact hnot (by simpa [eq_of_beq hab] using ha)
  · intro c hc hu
    rw [workflow_columns]
    exact mem_user_columns.mpr ⟨hc, hu⟩
  · intro c hc
    rw [workflow_columns] at hc
    exact mem_user_columns.mp hc
  · intro a ha
    rw [workflow_columns] at ha
    rcases mem_stage_missing ha with ⟨hu, hname⟩
    rw [List.mem_filter] at hname
    simp at hname
    refine ⟨hu, ?_⟩
    intro hmem
    rw [workflow_columns] at hmem
    rcases List.mem_map.mp hmem with ⟨x, hx, hxa⟩
    exact hname.2 x hx hxa

/-- Witness for C4: the amended statement at the three-default-column user;
"Pending" is missing from the presented names and is indeed staged, and every
presented column is one of the user's prior columns. -/
theorem C4_workflow_repair_witness :
    "Pending" ∈ ((workflow_columns
        [⟨1, "To Do", 0, 1⟩, ⟨2, "In Progress", 1, 1⟩, ⟨3, "Done", 2, 1⟩] 1 4).1.map
          (fun c => c.name))
    ∧ (⟨1, "To Do", 0, 1⟩ : Column) ∈ (workflow_columns
        [⟨1, "To Do", 0, 1⟩, ⟨2, "In Progress", 1, 1⟩, ⟨3, "Done", 2, 1⟩] 1 4).2 := by
  have h := C4_workflow_repair_staged_not_presented
      [⟨1, "To Do", 0, 1⟩, ⟨2, "In Progress", 1, 1⟩, ⟨3, "Done", 2, 1⟩] 1 4
  exact ⟨h.1 "Pending" (by decide) (by decide),
         h.2.1 ⟨1, "To Do", 0, 1⟩ (by decide) (by decide)⟩

/-! Helper lemmas for the reminder scheduler. -/

lemma disarm_update_id (now : Int) (u : Task) : (disarm_update now u).id = u.id := by
  unfold disarm_update
  split <;> rfl

lemma task_unique_of_filter {db : List Task} {t y : Task}
    (hf : db.filter (fun x => x.id == t.id) = [t]) (hy : y ∈ db) (hid : y.id = t.id) :
    y = t := by
  have hmem : y ∈ db.filter (fun x => x.id == t.id) := List.mem_filter.mpr ⟨hy, by simp [hid]⟩
  rw [hf] at hmem
  simpa using hmem

lemma reminder_due_true {t : Task} {d now : Int} (harm : t.reminder_set = true)
    (hcomp : t.complete = false) (hdue : t.due_date = some d)
    (h1 : 0 < d - now) (h2 : d - now < 300) : reminder_due now t = true := by
  simp [reminder_due, harm, hcomp, hdue, h1, h2]

/-! C5.  One cycle of `reminder_worker` passes one message to `mail.send` per
armed, incomplete, due-within-window task (when both credentials are
configured), and clears `reminder_set` on every such task; the cleared flag
takes the task out of the next cycle's selection. -/

/-- Claim C5: for a task `t`, armed, incomplete and due strictly within the
next 300 seconds at the cycle's snapshot (and occurring once in the table),
a cycle with configured mail credentials sends one message per due task with
exactly one due entry for `t` — including the message built for `t` — and
disarms `t` whether or not delivery succeeds (`mail.send` failures are caught
and only logged, and the model's output does not depend on them); a second
cycle at any snapshot sends one message per task then due, and no task with
`t`'s id is ever among them. -/
theorem C5_reminder_once :
    ∀ (db : List Task) (users : List User) (mu mp : Option String)
      (now now2 : Int) (t : Task) (d : Int),
      db.filter (fun x => x.id == t.id) = [t] →
      t.reminder_set = true → t.complete = false → t.due_date = some d →
      0 < d - now → d - now < 300 →
      truthy mu = true → truthy mp = true →
      (reminder_cycle db users mu mp now).2.length
          = (db.filter (reminder_due now)).length
      ∧ (db.filter (fun x => reminder_due now x && x.id == t.id)).length = 1
      ∧ mk_message users (mu.getD "") t ∈ (reminder_cycle db users mu mp now).2
      ∧ (∀ x ∈ (reminder_cycle db users mu mp now).1, x.id = t.id → x.reminder_set = false)
      ∧ (reminder_cycle (reminder_cycle db users mu mp now).1 users mu mp now2).2.length
          = ((reminder_cycle db users mu mp now).1.filter (reminder_due now2)).length
      ∧ (∀ x ∈ (reminder_cycle db users mu mp now).1.filter (reminder_due now2),
          x.id ≠ t.id) := by
  intro db users mu mp now now2 t d hf harm hcomp hdue h1 h2 hmu hmp
  have hdt : reminder_due now t = true := reminder_due_true harm hcomp hdue h1 h2
  have hc : (truthy mu && truthy mp) = true := by rw [hmu, hmp]; rfl
  have hmem : t ∈ db := by
    have : t ∈ db.filter (fun x => x.id == t.id) := by
      rw [hf]; exact List.mem_singleton_self t
    exact (List.mem_filter.mp this).1
  refine ⟨?_, ?_, ?_, ?_, ?_, ?_⟩
  · simp [reminder_cycle, hc]
  · rw [← List.filter_filter, hf]
    simp [hdt]
  · have hin : t ∈ db.filter (reminder_due now) := List.mem_filter.mpr ⟨hmem, hdt⟩
    have := List.mem_map_of_mem (mk_message users (mu.getD "")) hin
    simpa [reminder_cycle, hc] using this
  · intro x hx hid
    have hx' : x ∈ db.map (disarm_update now) := hx
    rcases List.mem_map.mp hx' with ⟨y, hy, rfl⟩
    have hyid : y.id = t.id := by rw [← disarm_update_id now y]; exact hid
    have hyt : y = t := task_unique_of_filter hf hy hyid
    subst hyt
    simp [disarm_update, hdt]
  · simp [reminder_cycle, hc]
  · intro x hx hid
    have hx1 : x ∈ (reminder_cycle db users mu mp now).1 := (List.mem_filter.mp hx).1
    have hx2 : reminder_due now2 x = true := (List.mem_filter.mp hx).2
    have hx' : x ∈ db.map (disarm_update now) := hx1
    rcases List.mem_map.mp hx' with ⟨y, hy, rfl⟩
    have hyid : y.id = t.id := by rw [← disarm_update_id now y]; exact hid
    have hyt : y = t := task_unique_of_filter hf hy hyid
    subst hyt
    rw [disarm_update, hdt] at hx2
    simp [reminder_due] at hx2

/-- Witness for C5: a task due in 200 seconds, armed and incomplete, with
both credentials configured — one cycle at time 0 sends exactly its message
and disarms it. -/
theorem C5_reminder_once_witness :
    (reminder_cycle [⟨1, "Report", none, some 200, "Medium", false, true, 0, "todo", 1, none⟩]
        [⟨1, "Ann", "ann@x.com", "h"⟩] (some "m") (some "p") 0).2.length
      = ([⟨1, "Report", none, some 200, "Medium", false, true, 0, "todo", 1, none⟩].filter
          (reminder_due 0)).length
    ∧ ([⟨1, "Report", none, some 200, "Medium", false, true, 0, "todo", 1, none⟩].filter
        (fun x => reminder_due 0 x
          && x.id == (⟨1, "Report", none, some 200, "Medium", false, true, 0, "todo", 1, none⟩ : Task).id)).length = 1
    ∧ mk_message [⟨1, "Ann", "ann@x.com", "h"⟩] "m"
        ⟨1, "Report", none, some 200, "Medium", false, true, 0, "todo", 1, none⟩
      ∈ (reminder_cycle [⟨1, "Report", none, some 200, "Medium", false, true, 0, "todo", 1, none⟩]
          [⟨1, "Ann", "ann@x.com", "h"⟩] (some "m") (some "p") 0).2
    ∧ (disarm_update 0 ⟨1, "Report", none, some 200, "Medium", false, true, 0, "todo", 1, none⟩).reminder_set
        = false := by
  obtain ⟨p1, p2, p3, p4, p5, p6⟩ := C5_reminder_once
      [⟨1, "Report", none, some 200, "Medium", false, true, 0, "todo", 1, none⟩]
      [⟨1, "Ann", "ann@x.com", "h"⟩] (some "m") (some "p") 0 60
      ⟨1, "Report", none, some 200, "Medium", false, true, 0, "todo", 1, none⟩ 200
      (by decide) rfl rfl rfl (by decide) (by decide) rfl rfl
  exact ⟨p1, p2, p3,
    p4 (disarm_update 0 ⟨1, "Report", none, some 200, "Medium", false, true, 0, "todo", 1, none⟩)
      (by decide) (by decide)⟩

/-! C9.  The disarm assignment sits outside the credential guard: when
`MAIL_USERNAME`/`MAIL_PASSWORD` are not configured, no message is ever built
or sent, yet `reminder_set` is still cleared — the reminder is silently and
permanently lost. -/

/-- Claim C9: in a cycle observing an armed, incomplete task due strictly
within the window, if the mail credentials are not configured (either one
falsy) then no message at all is passed to `mail.send`, and the task's
`reminder_set` flag is still cleared. -/
theorem C9_disarm_without_credentials :
    ∀ (db : List Task) (users : List User) (mu mp : Option String)
      (now : Int) (t : Task) (d : Int),
      db.filter (fun x => x.id == t.id) = [t] →
      t.reminder_set = true → t.complete = false → t.due_date = some d →
      0 < d - now → d - now < 300 →
      (truthy mu && truthy mp) = false →
      (reminder_cycle db users mu mp now).2 = []
      ∧ (∀ x ∈ (reminder_cycle db users mu mp now).1, x.id = t.id → x.reminder_set = false) := by
  intro db users mu mp now t d hf harm hcomp hdue h1 h2 hcred
  have hdt : reminder_due now t = true := reminder_due_true harm hcomp hdue h1 h2
  refine ⟨?_, ?_⟩
  · simp [reminder_cycle, hcred]
  · intro x hx hid
    have hx' : x ∈ db.map (disarm_update now) := hx
    rcases List.mem_map.mp hx' with ⟨y, hy, rfl⟩
    have hyid : y.id = t.id := by rw [← disarm_update_id now y]; exact hid
    have hyt : y = t := task_unique_of_filter hf hy hyid
    subst hyt
    simp [disarm_update, hdt]

/-- Witness for C9: the same armed task due in 200 seconds, with no mail
credentials at all — the cycle sends nothing and still disarms it. -/
theorem C9_disarm_without_credentials_witness :
    (reminder_cycle [⟨1, "Report", none, some 200, "Medium", false, true, 0, "todo", 1, none⟩]
        [] none none 0).2 = []
    ∧ (disarm_update 0 ⟨1, "Report", none, some 200, "Medium", false, true, 0, "todo", 1, none⟩).reminder_set
        = false := by
  obtain ⟨p1, p2⟩ := C9_disarm_without_credentials
      [⟨1, "Report", none, some 200, "Medium", false, true, 0, "todo", 1, none⟩]
      [] none none 0
      ⟨1, "Report", none, some 200, "Medium", false, true, 0, "todo", 1, none⟩ 200
      (by decide) rfl rfl rfl (by decide) (by decide) rfl
  exact ⟨p1,
    p2 (disarm_update 0 ⟨1, "Report", none, some 200, "Medium", false, true, 0, "todo", 1, none⟩)
      (by decide) (by decide)⟩

/-! C6.  `ensure_default_columns` inserts the three signup defaults only when
the user owns no column at all, so a second run finds the first run's columns
(or the pre-existing ones) and changes nothing. -/

lemma user_columns_empty {cols : List Column} {uid : Nat}
    (h : (user_columns cols uid).isEmpty = true) :
    cols.filter (fun c => c.user_id == uid) = [] := by
  have h0 : user_columns cols uid = [] := by
    cases hu : user_columns cols uid with
    | nil => rfl
    | cons a l => rw [hu] at h; simp [List.isEmpty] at h
  have hlen := length_sort_by_position (cols.filter (fun c => c.user_id == uid))
  rw [show sort_by_position (cols.filter (fun c => c.user_id == uid))
        = user_columns cols uid from rfl, h0] at hlen
  exact List.length_eq_zero.mp hlen.symm

/-- Claim C6: `ensure_default_columns` creates exactly the canonical columns
"To Do"/"In Progress"/"Done" at positions 0,1,2 when the user owns zero
columns, leaves the table untouched otherwise, and a second run in succession
always yields exactly the state the first run produced (idempotence). -/
theorem C6_ensure_default_columns_idempotent :
    ∀ (cols : List Column) (uid n1 n2 : Nat),
      ((user_columns cols uid).isEmpty = true →
        ensure_default_columns cols uid n1
          = cols ++ [⟨n1, "To Do", 0, uid⟩, ⟨n1 + 1, "In Progress", 1, uid⟩,
                     ⟨n1 + 2, "Done", 2, uid⟩])
      ∧ ((user_columns cols uid).isEmpty = false →
        ensure_default_columns cols uid n1 = cols)
      ∧ ensure_default_columns (ensure_default_columns cols uid n1) uid n2
          = ensure_default_columns cols uid n1 := by
  intro cols uid n1 n2
  refine ⟨fun h => by simp [ensure_default_columns, h],
          fun h => by simp [ensure_default_columns, h], ?_⟩
  cases h : (user_columns cols uid).isEmpty with
  | false => simp [ensure_default_columns, h]
  | true =>
    have hf := user_columns_empty h
    have h1 : ensure_default_columns cols uid n1
        = cols ++ [⟨n1, "To Do", 0, uid⟩, ⟨n1 + 1, "In Progress", 1, uid⟩,
                   ⟨n1 + 2, "Done", 2, uid⟩] := by
      simp [ensure_default_columns, h]
    rw [h1]
    have hlen : (user_columns (cols ++ [⟨n1, "To Do", 0, uid⟩,
        ⟨n1 + 1, "In Progress", 1, uid⟩, ⟨n1 + 2, "Done", 2, uid⟩]) uid).length = 3 := by
      rw [user_columns, length_sort_by_position, List.filter_append, hf]
      simp
    have h2 : (user_columns (cols ++ [⟨n1, "To Do", 0, uid⟩,
        ⟨n1 + 1, "In Progress", 1, uid⟩, ⟨n1 + 2, "Done", 2, uid⟩]) uid).isEmpty = false := by
      cases hu : user_columns (cols ++ [⟨n1, "To Do", 0, uid⟩,
          ⟨n1 + 1, "In Progress", 1, uid⟩, ⟨n1 + 2, "Done", 2, uid⟩]) uid with
      | nil => rw [hu] at hlen; simp at hlen
      | cons a l => rfl
    simp [ensure_default_columns, h2]

/-- Witness for C6: a user with no columns gets exactly the three defaults,
and a second run changes nothing. -/
theorem C6_ensure_default_columns_witness :
    ensure_default_columns [] 1 1
      = [⟨1, "To Do", 0, 1⟩, ⟨2, "In Progress", 1, 1⟩, ⟨3, "Done", 2, 1⟩]
    ∧ ensure_default_columns (ensure_default_columns [] 1 1) 1 4
      = ensure_default_columns [] 1 1 := by
  obtain ⟨p1, p2, p3⟩ := C6_ensure_default_columns_idempotent [] 1 1 4
  exact ⟨by simpa using p1 (by decide), p3⟩

/-! C7.  `calculate_stats`: `pending` and `completed` partition the task list,
and the overdue test requires a present due date before anything else. -/

lemma length_filter_complete (l : List Task) :
    (l.filter (fun t => !t.complete)).length + (l.filter (fun t => t.complete)).length
      = l.length := by
  induction l with
  | nil => rfl
  | cons a l ih =>
    cases ha : a.complete <;> simp [List.filter_cons, ha] <;> omega

/-- Claim C7: for every task set, `calculate_stats` satisfies
total = pending + completed, and a task with no due date never contributes to
the overdue count, whatever its completion state. -/
theorem C7_calculate_stats_partition :
    ∀ (tasks : List Task) (now : Int),
      (calculate_stats tasks now).total
        = (calculate_stats tasks now).pending + (calculate_stats tasks now).completed
      ∧ (∀ t : Task, t.due_date = none →
          (calculate_stats (t :: tasks) now).overdue = (calculate_stats tasks now).overdue) := by
  intro tasks now
  constructor
  · have := length_filter_complete tasks
    simp only [calculate_stats]
    omega
  · intro t ht
    simp [calculate_stats, List.filter_cons, is_overdue, ht]

/-- Witness for C7: a two-task set (one completed and overdue-dated, one
pending) and an extra completed task with no due date, which leaves the
overdue count unchanged. -/
theorem C7_calculate_stats_witness :
    (calculate_stats [⟨1, "a", none, some 5, "Low", true, false, 0, "todo", 1, none⟩,
        ⟨2, "b", none, none, "High", false, false, 0, "todo", 1, none⟩] 10).total
      = (calculate_stats [⟨1, "a", none, some 5, "Low", true, false, 0, "todo", 1, none⟩,
          ⟨2, "b", none, none, "High", false, false, 0, "todo", 1, none⟩] 10).pending
        + (calculate_stats [⟨1, "a", none, some 5, "Low", true, false, 0, "todo", 1, none⟩,
            ⟨2, "b", none, none, "High", false, false, 0, "todo", 1, none⟩] 10).completed
    ∧ (calculate_stats (⟨3, "c", none, none, "Low", true, false, 0, "todo", 1, none⟩
          :: [⟨1, "a", none, some 5, "Low", true, false, 0, "todo", 1, none⟩,
              ⟨2, "b", none, none, "High", false, false, 0, "todo", 1, none⟩]) 10).overdue
      = (calculate_stats [⟨1, "a", none, some 5, "Low", true, false, 0, "todo", 1, none⟩,
          ⟨2, "b", none, none, "High", false, false, 0, "todo", 1, none⟩] 10).overdue := by
  obtain ⟨p1, p2⟩ := C7_calculate_stats_partition
      [⟨1, "a", none, some 5, "Low", true, false, 0, "todo", 1, none⟩,
       ⟨2, "b", none, none, "High", false, false, 0, "todo", 1, none⟩] 10
  exact ⟨p1, p2 ⟨3, "c", none, none, "Low", true, false, 0, "todo", 1, none⟩ rfl⟩

/-! C8.  `/add` strips the title and bails out with the "Title required" flash
before touching the database. -/

/-- Claim C8: an add request whose title is empty or whitespace-only after
trimming persists no task (and no column), and always reports the validation
error flash. -/
theorem C8_add_empty_title_rejected :
    ∀ (db : List Task) (cols : List Column) (sid : Nat)
      (f_title f_desc f_due f_priority f_column_id : Option String) (f_reminder : Bool)
      (strptime : String → Option Int) (to_int : String → Option Nat)
      (next_task_id next_col_id : Nat) (now : Int),
      strip (f_title.getD "") = "" →
      add db cols sid f_title f_desc f_due f_priority f_column_id f_reminder
          strptime to_int next_task_id next_col_id now
        = (db, cols, Resp.redirect "referrer" "Title required" "danger") := by
  intro db cols sid f_title f_desc f_due f_priority f_column_id f_reminder
    strptime to_int next_task_id next_col_id now h
  simp [add, h]

/-- Witness for C8: a whitespace-only title is rejected with the flash and
both tables are unchanged. -/
theorem C8_add_empty_title_witness :
    add [] [⟨1, "To Do", 0, 1⟩] 1 (some "   ") none none none none false
        (fun _ => none) (fun _ => none) 5 6 0
      = ([], [⟨1, "To Do", 0, 1⟩], Resp.redirect "referrer" "Title required" "danger") := by
  exact C8_add_empty_title_rejected [] [⟨1, "To Do", 0, 1⟩] 1 (some "   ") none none none
    none false (fun _ => none) (fun _ => none) 5 6 0 (by decide)

/-! C10.  The two toggle views each flip exactly one boolean of the owned
task and touch nothing else, so repeating one restores the original row. -/

lemma map_proj_eq {β : Type} (g : Task → Task) (proj : Task → β)
    (h : ∀ u, proj (g u) = proj u) (db : List Task) :
    (db.map g).map proj = db.map proj := by
  rw [List.map_map]
  exact List.map_congr_left (fun a _ => h a)

lemma toggle_update_id (task_id : Nat) (u : Task) :
    (toggle_update task_id u).id = u.id := by
  unfold toggle_update
  split <;> rfl

lemma toggle_reminder_update_id (task_id : Nat) (u : Task) :
    (toggle_reminder_update task_id u).id = u.id := by
  unfold toggle_reminder_update
  split <;> rfl

lemma toggle_update_invol (task_id : Nat) (u : Task) :
    toggle_update task_id (toggle_update task_id u) = u := by
  cases u with
  | mk id title description due_date priority complete reminder_set created_at status user_id column_id =>
    unfold toggle_update
    by_cases h : (id == task_id) = true <;> simp [h]

lemma toggle_reminder_update_invol (task_id : Nat) (u : Task) :
    toggle_reminder_update task_id (toggle_reminder_update task_id u) = u := by
  cases u with
  | mk id title description due_date priority complete reminder_set created_at status user_id column_id =>
    unfold toggle_reminder_update
    by_cases h : (id == task_id) = true <;> simp [h]

lemma get_task_map {g : Task → Task} (hid : ∀ u, (g u).id = u.id)
    (db : List Task) (task_id : Nat) :
    get_task (db.map g) task_id = (get_task db task_id).map g := by
  unfold get_task
  induction db with
  | nil => rfl
  | cons a l ih =>
    simp only [List.map_cons, List.find?, hid a]
    cases h : (a.id == task_id) <;> simp [ih]

lemma find?_pred {p : Task → Bool} {l : List Task} {a : Task}
    (h : l.find? p = some a) : p a = true := List.find?_some h

/-- Claim C10: on a task owned by the session user, `/toggle` leaves the ids
and every field but `complete` of every row unchanged and flips `complete` on
the target; `/toggle_reminder` does the same for `reminder_set`; and applying
either toggle twice restores the table exactly. -/
theorem C10_toggle_frame_and_involution :
    ∀ (db : List Task) (sid task_id : Nat) (t : Task),
      get_task db task_id = some t → t.user_id = sid →
      ((toggle db sid task_id).1.map (fun u => u.id) = db.map (fun u => u.id)
       ∧ (toggle db sid task_id).1.map (fun u => u.title) = db.map (fun u => u.title)
       ∧ (toggle db sid task_id).1.map (fun u => u.description) = db.map (fun u => u.description)
       ∧ (toggle db sid task_id).1.map (fun u => u.due_date) = db.map (fun u => u.due_date)
       ∧ (toggle db sid task_id).1.map (fun u => u.priority) = db.map (fun u => u.priority)
       ∧ (toggle db sid task_id).1.map (fun u => u.status) = db.map (fun u => u.status)
       ∧ (toggle db sid task_id).1.map (fun u => u.user_id) = db.map (fun u => u.user_id)
       ∧ (toggle db sid task_id).1.map (fun u => u.column_id) = db.map (fun u => u.column_id)
       ∧ (toggle db sid task_id).1.map (fun u => u.created_at) = db.map (fun u => u.created_at)
       ∧ (toggle db sid task_id).1.map (fun u => u.reminder_set) = db.map (fun u => u.reminder_set)
       ∧ get_task (toggle db sid task_id).1 task_id = some { t with complete := !t.complete }
       ∧ (toggle (toggle db sid task_id).1 sid task_id).1 = db)
      ∧ ((toggle_reminder db sid task_id).1.map (fun u => u.id) = db.map (fun u => u.id)
       ∧ (toggle_reminder db sid task_id).1.map (fun u => u.title) = db.map (fun u => u.title)
       ∧ (toggle_reminder db sid task_id).1.map (fun u => u.description) = db.map (fun u => u.description)
       ∧ (toggle_reminder db sid task_id).1.map (fun u => u.due_date) = db.map (fun u => u.due_date)
       ∧ (toggle_reminder db sid task_id).1.map (fun u => u.priority) = db.map (fun u => u.priority)
       ∧ (toggle_reminder db sid task_id).1.map (fun u => u.status) = db.map (fun u => u.status)
       ∧ (toggle_reminder db sid task_id).1.map (fun u => u.user_id) = db.map (fun u => u.user_id)
       ∧ (toggle_reminder db sid task_id).1.map (fun u => u.column_id) = db.map (fun u => u.column_id)
       ∧ (toggle_reminder db sid task_id).1.map (fun u => u.created_at) = db.map (fun u => u.created_at)
       ∧ (toggle_reminder db sid task_id).1.map (fun u => u.complete) = db.map (fun u => u.complete)
       ∧ get_task (toggle_reminder db sid task_id).1 task_id
           = some { t with reminder_set := !t.reminder_set }
       ∧ (toggle_reminder (toggle_reminder db sid task_id).1 sid task_id).1 = db) := by
  intro db sid task_id t hfind hown
  have hfind' : db.find? (fun u => u.id == task_id) = some t := hfind
  have htid : (t.id == task_id) = true := find?_pred hfind'
  have hb : (t.user_id != sid) = false := by simp [bne, hown]
  have h1 : (toggle db sid task_id).1 = db.map (toggle_update task_id) := by
    simp [toggle, hfind, hb]
  have h2 : (toggle_reminder db sid task_id).1 = db.map (toggle_reminder_update task_id) := by
    simp [toggle_reminder, hfind, hb]
  have hfind1 : get_task (db.map (toggle_update task_id)) task_id
      = some (toggle_update task_id t) := by
    rw [get_task_map (toggle_update_id task_id), hfind]
    rfl
  have hfind2 : get_task (db.map (toggle_reminder_update task_id)) task_id
      = some (toggle_reminder_update task_id t) := by
    rw [get_task_map (toggle_reminder_update_id task_id), hfind]
    rfl
  have hu1 : ((toggle_update task_id t).user_id != sid) = false := by
    unfold toggle_update
    split <;> simp [bne, hown]
  have hu2 : ((toggle_reminder_update task_id t).user_id != sid) = false := by
    unfold toggle_reminder_update
    split <;> simp [bne, hown]
  constructor
  · refine ⟨?_, ?_, ?_, ?_, ?_, ?_, ?_, ?_, ?_, ?_, ?_, ?_⟩
    · rw [h1]; exact map_proj_eq _ _ (fun u => toggle_update_id task_id u) db
    · rw [h1]; exact map_proj_eq _ _ (fun u => by unfold toggle_update; split <;> rfl) db
    · rw [h1]; exact map_proj_eq _ _ (fun u => by unfold toggle_update; split <;> rfl) db
    · rw [h1]; exact map_proj_eq _ _ (fun u => by unfold toggle_update; split <;> rfl) db
    · rw [h1]; exact map_proj_eq _ _ (fun u => by unfold toggle_update; split <;> rfl) db
    · rw [h1]; exact map_proj_eq _ _ (fun u => by unfold toggle_update; split <;> rfl) db
    · rw [h1]; exact map_proj_eq _ _ (fun u => by unfold toggle_update; split <;> rfl) db
    · rw [h1]; exact map_proj_eq _ _ (fun u => by unfold toggle_update; split <;> rfl) db
    · rw [h1]; exact map_proj_eq _ _ (fun u => by unfold toggle_update; split <;> rfl) db
    · rw [h1]; exact map_proj_eq _ _ (fun u => by unfold toggle_update; split <;> rfl) db
    · rw [h1, hfind1]
      unfold toggle_update
      rw [if_pos htid]
    · rw [h1]
      simp [toggle, hfind1, hu1]
      exact List.map_id'' (fun u => toggle_update_invol task_id u) db
  · refine ⟨?_, ?_, ?_, ?_, ?_, ?_, ?_, ?_, ?_, ?_, ?_, ?_⟩
    · rw [h2]; exact map_proj_eq _ _ (fun u => toggle_reminder_update_id task_id u) db
    · rw [h2]; exact map_proj_eq _ _ (fun u => by unfold toggle_reminder_update; split <;> rfl) db
    · rw [h2]; exact map_proj_eq _ _ (fun u => by unfold toggle_reminder_update; split <;> rfl) db
    · rw [h2]; exact map_proj_eq _ _ (fun u => by unfold toggle_reminder_update; split <;> rfl) db
    · rw [h2]; exact map_proj_eq _ _ (fun u => by unfold toggle_reminder_update; split <;> rfl) db
    · rw [h2]; exact map_proj_eq _ _ (fun u => by unfold toggle_reminder_update; split <;> rfl) db
    · rw [h2]; exact map_proj_eq _ _ (fun u => by unfold toggle_reminder_update; split <;> rfl) db
    · rw [h2]; exact map_proj_eq _ _ (fun u => by unfold toggle_reminder_update; split <;> rfl) db
    · rw [h2]; exact map_proj_eq _ _ (fun u => by unfold toggle_reminder_update; split <;> rfl) db
    · rw [h2]; exact map_proj_eq _ _ (fun u => by unfold toggle_reminder_update; split <;> rfl) db
    · rw [h2, hfind2]
      unfold toggle_reminder_update
      rw [if_pos htid]
    · rw [h2]
      simp [toggle_reminder, hfind2, hu2]
      exact List.map_id'' (fun u => toggle_reminder_update_invol task_id u) db

/-- Witness for C10: a single owned task; each toggle twice restores the
table, one toggle flips exactly the boolean, and the title column is
untouched. -/
theorem C10_toggle_witness :
    (toggle (toggle [⟨1, "a", none, none, "Medium", false, false, 0, "todo", 1, none⟩] 1 1).1 1 1).1
      = [⟨1, "a", none, none, "Medium", false, false, 0, "todo", 1, none⟩]
    ∧ (toggle_reminder (toggle_reminder
        [⟨1, "a", none, none, "Medium", false, false, 0, "todo", 1, none⟩] 1 1).1 1 1).1
      = [⟨1, "a", none, none, "Medium", false, false, 0, "todo", 1, none⟩]
    ∧ get_task (toggle [⟨1, "a", none, none, "Medium", false, false, 0, "todo", 1, none⟩] 1 1).1 1
      = some ⟨1, "a", none, none, "Medium", true, false, 0, "todo", 1, none⟩
    ∧ (toggle [⟨1, "a", none, none, "Medium", false, false, 0, "todo", 1, none⟩] 1 1).1.map
        (fun u => u.title) = ["a"] := by
  obtain ⟨⟨p1, p2, p3, p4, p5, p6, p7, p8, p9, p10, pflip, pinv⟩,
          ⟨q1, q2, q3, q4, q5, q6, q7, q8, q9, q10, qflip, qinv⟩⟩ :=
    C10_toggle_frame_and_involution
      [⟨1, "a", none, none, "Medium", false, false, 0, "todo", 1, none⟩] 1 1
      ⟨1, "a", none, none, "Medium", false, false, 0, "todo", 1, none⟩ rfl rfl
  exact ⟨pinv, qinv, pflip, by rw [p2]; rfl⟩

end SmartTodo
